import Mathlib

/-!
Shallow embedding of the statistical-sampler web API for checking the
specification's claims about validation, deduplicating registration and
the sampling statistics computation.

Two variants of the service exist in the repository and are embedded
side by side:

* `SDS.MainApp` embeds the root `main.py`: an in-memory dictionary store
  `db` with a module-global auto-incrementing `ID` counter, and no
  `num_samples` or unknown-family check in its validation block.
* `SDS.Endpoints` embeds `build/lib/src/endpoints.py`: a sqlite-backed
  store with a `UNIQUE(distribution_type, param_one, param_two,
  num_samples)` constraint, insert-or-lookup deduplication, a
  `num_samples <= 1` rejection and an unknown-family rejection.

Parameter values (`float` in the source) are modelled as rationals so
that validation and storage stay executable; the real-valued statistics
(`scipy.special.gamma`, square roots) are modelled over `ℝ`.  The random
draw of a sample vector is modelled as an explicit input
(`draw : List ℝ`) of the statistics computation.
-/

namespace SDS

/-- `ParameterTypes` enum from `distributions.py`. -/
inductive ParameterTypes where
  | min
  | max
  | mean
  | std
  | shape
  | scale
  deriving DecidableEq

/-- `Parameter` model from `distributions.py`: a role tag plus a value. -/
structure Parameter where
  param_type : ParameterTypes
  param_val : ℚ
  deriving DecidableEq

/-- `Sample` model from `distributions.py`.  The `Distributions` enum field
`distribution_type` is kept as its raw string tag (the enum member's value),
so that the validators' own treatment of unknown tags is observable. -/
structure Sample where
  distribution_type : String
  num_samples : ℤ
  params : List Parameter
  deriving DecidableEq

/-- `SampleStatistics` model from `distributions.py`: exactly these six
float fields and nothing else. -/
structure SampleStatistics where
  mean_samples : ℝ
  std_samples : ℝ
  mean_dist : ℝ
  std_dist : ℝ
  error_mean : ℝ
  error_std : ℝ

/-- The spec's error taxonomy (§7); each constructor corresponds to the
`raise` sites of the source (TypeError/ValueError with distinguishing
messages, and the not-found condition of the lookup). -/
inductive RejectReason where
  | arityError
  | shapeError
  | roleError
  | domainError
  | familyError
  | notFoundError
  deriving DecidableEq

/-- `sample.params[i].param_val`.  The source indexes positions 0 and 1 only
after its length check has established exactly two entries; out-of-range
access defaults harmlessly. -/
def paramVal (s : Sample) (i : ℕ) : ℚ :=
  (s.params.getD i ⟨ParameterTypes.min, 0⟩).param_val

/-- The three family tags carried by the `Distributions` enum. -/
def knownFamily (t : String) : Prop :=
  t = "uniform" ∨ t = "normal" ∨ t = "weibull"

instance (t : String) : Decidable (knownFamily t) := by
  unfold knownFamily
  infer_instance

/-- The per-family theoretical moments computed inside `get_sample_statistics`
(both variants compute the same expressions): uniform `((p0+p1)/2,
(p1-p0)/sqrt 12)`, normal `(p0, p1)`, weibull
`(p1*Gamma(1+1/p0), p1*sqrt(Gamma(1+2/p0) - Gamma(1+1/p0)^2))`;
an unrecognized tag falls to the final `else` raise. -/
noncomputable def theoreticalMoments (dist : String) (p0 p1 : ℚ) :
    Option (ℝ × ℝ) :=
  if dist = "uniform" then
    some (((p0 : ℝ) + (p1 : ℝ)) / 2, ((p1 : ℝ) - (p0 : ℝ)) / Real.sqrt 12)
  else if dist = "normal" then
    some ((p0 : ℝ), (p1 : ℝ))
  else if dist = "weibull" then
    some ((p1 : ℝ) * Real.Gamma (1 + 1 / (p0 : ℝ)),
          (p1 : ℝ) * Real.sqrt (Real.Gamma (1 + 2 / (p0 : ℝ))
            - Real.Gamma (1 + 1 / (p0 : ℝ)) ^ 2))
  else none

/-- `np.mean(sample)`: the arithmetic mean of the drawn values. -/
noncomputable def npMean (xs : List ℝ) : ℝ :=
  xs.sum / (xs.length : ℝ)

/-- `np.std(sample, ddof=1)`: square root of the sum of squared deviations
from the mean divided by `n - 1`. -/
noncomputable def npStd1 (xs : List ℝ) : ℝ :=
  Real.sqrt ((xs.map (fun x => (x - npMean xs) ^ 2)).sum / ((xs.length : ℝ) - 1))

/-- Assembly of the `SampleStatistics` response from the drawn vector and the
theoretical moments (the `SampleStatistics(...)` constructor call in the
source). -/
noncomputable def sampleStats (draw : List ℝ) (mean_dist std_dist : ℝ) :
    SampleStatistics :=
  ⟨npMean draw, npStd1 draw, mean_dist, std_dist,
    |npMean draw - mean_dist|, |npStd1 draw - std_dist|⟩

/-- One row of the sqlite table `sample_definitions` (endpoints.py): the
stored columns are the id and the dedup tuple. -/
structure Row where
  id : ℕ
  distribution_type : String
  param_one : ℚ
  param_two : ℚ
  num_samples : ℤ
  deriving DecidableEq

/-- The sqlite store: current rows plus the AUTOINCREMENT id counter
(sqlite assigns ids 1, 2, ...). -/
structure DBState where
  rows : List Row
  nextId : ℕ
  deriving DecidableEq

namespace Endpoints

/-- The validation block of `generate_sample_entry`
(`build/lib/src/endpoints.py` lines 94-131), checks in source order:
`num_samples <= 1` rejection first, then per-family parameter count,
role order, positivity constraints, and a final `else` rejecting an
unrecognized distribution type. -/
def validate (s : Sample) : Except RejectReason Unit :=
  if s.num_samples ≤ 1 then .error .arityError
  else if s.distribution_type = "uniform" then
    match s.params with
    | [p0, p1] =>
      if p0.param_type ≠ ParameterTypes.min then .error .roleError
      else if p1.param_type ≠ ParameterTypes.max then .error .roleError
      else .ok ()
    | _ => .error .shapeError
  else if s.distribution_type = "normal" then
    match s.params with
    | [p0, p1] =>
      if p0.param_type ≠ ParameterTypes.mean then .error .roleError
      else if p1.param_type ≠ ParameterTypes.std then .error .roleError
      else if p1.param_val ≤ 0 then .error .domainError
      else .ok ()
    | _ => .error .shapeError
  else if s.distribution_type = "weibull" then
    match s.params with
    | [p0, p1] =>
      if p0.param_type ≠ ParameterTypes.shape then .error .roleError
      else if p1.param_type ≠ ParameterTypes.scale then .error .roleError
      else if p0.param_val ≤ 0 then .error .domainError
      else if p1.param_val ≤ 0 then .error .domainError
      else .ok ()
    | _ => .error .shapeError
  else .error .familyError

/-- The `UNIQUE(distribution_type, param_one, param_two, num_samples)`
conflict condition: does row `r` carry the dedup tuple of sample `s`? -/
def dedupMatches (s : Sample) (r : Row) : Bool :=
  r.distribution_type == s.distribution_type &&
  r.param_one == paramVal s 0 &&
  r.param_two == paramVal s 1 &&
  r.num_samples == s.num_samples

/-- `generate_sample_entry` endpoint (`endpoints.py` lines 77-165): validate,
then INSERT the dedup tuple; on a UNIQUE-constraint conflict, SELECT and
return the existing row's id; otherwise store a new row under the next
AUTOINCREMENT id.  A validation failure propagates with the store
untouched. -/
def generate_sample_entry (st : DBState) (s : Sample) :
    Except RejectReason ℕ × DBState :=
  match validate s with
  | .error e => (.error e, st)
  | .ok _ =>
    match st.rows.find? (dedupMatches s) with
    | some r => (.ok r.id, st)
    | none =>
      (.ok st.nextId,
        ⟨st.rows ++
          [⟨st.nextId, s.distribution_type, paramVal s 0, paramVal s 1,
            s.num_samples⟩],
          st.nextId + 1⟩)

/-- `get_samples` endpoint: SELECT * FROM sample_definitions. -/
def get_samples (st : DBState) : List Row :=
  st.rows

/-- `get_sample_statistics` endpoint (`endpoints.py` lines 189-263): fetch the
row by id (explicit not-found rejection), branch on the stored
distribution tag for the theoretical moments, then build the statistics
from the drawn vector. -/
noncomputable def get_sample_statistics (st : DBState) (id : ℕ)
    (draw : List ℝ) : Except RejectReason (Row × SampleStatistics) :=
  match st.rows.find? (fun r => r.id == id) with
  | none => .error .notFoundError
  | some r =>
    match theoreticalMoments r.distribution_type r.param_one r.param_two with
    | none => .error .familyError
    | some (md, sd) => .ok (r, sampleStats draw md sd)

end Endpoints

/-- The in-memory store of `main.py`: the module dictionary `db` (keyed by
the integer id) together with the module-global counter `ID`
(initialized to 1). -/
structure MainState where
  db : List (ℕ × Sample)
  ID : ℕ
  deriving DecidableEq

namespace MainApp

/-- The validation block of `generate_sample_entry` (`main.py` lines 47-75):
per-family parameter count, role order and positivity checks only — there
is no `num_samples` check, and no `else` branch for an unrecognized tag
(control falls through to the store). -/
def validateSample (s : Sample) : Except RejectReason Unit :=
  if s.distribution_type = "uniform" then
    match s.params with
    | [p0, p1] =>
      if p0.param_type ≠ ParameterTypes.min then .error .roleError
      else if p1.param_type ≠ ParameterTypes.max then .error .roleError
      else .ok ()
    | _ => .error .shapeError
  else if s.distribution_type = "normal" then
    match s.params with
    | [p0, p1] =>
      if p0.param_type ≠ ParameterTypes.mean then .error .roleError
      else if p1.param_type ≠ ParameterTypes.std then .error .roleError
      else if p1.param_val ≤ 0 then .error .domainError
      else .ok ()
    | _ => .error .shapeError
  else if s.distribution_type = "weibull" then
    match s.params with
    | [p0, p1] =>
      if p0.param_type ≠ ParameterTypes.shape then .error .roleError
      else if p1.param_type ≠ ParameterTypes.scale then .error .roleError
      else if p0.param_val ≤ 0 then .error .domainError
      else if p1.param_val ≤ 0 then .error .domainError
      else .ok ()
    | _ => .error .shapeError
  else .ok ()

/-- `generate_sample_entry` endpoint (`main.py` lines 31-79): after the checks
pass (or fall through), `db[ID] = sample; ID += 1; return ID-1`.  An
exception in the checks propagates with `db` and `ID` untouched. -/
def generate_sample_entry (st : MainState) (s : Sample) :
    Except RejectReason ℕ × MainState :=
  match validateSample s with
  | .error e => (.error e, st)
  | .ok _ => (.ok st.ID, ⟨st.db ++ [(st.ID, s)], st.ID + 1⟩)

/-- `get_samples` endpoint (`main.py` lines 90-100): returns `db`. -/
def get_samples (st : MainState) : List (ℕ × Sample) :=
  st.db

/-- The dictionary access `db[id]` of `main.py` line 120 (a missing key
raises, surfacing as the not-found case). -/
def dbLookup (st : MainState) (id : ℕ) : Option Sample :=
  (st.db.find? (fun p => p.1 == id)).map Prod.snd

/-- `get_sample_statistics` endpoint (`main.py` lines 103-168): fetch the
stored sample by id, branch on its distribution tag for the theoretical
moments, then build the statistics from the drawn vector and return the
pair `(sample_def, stats)`. -/
noncomputable def get_sample_statistics (st : MainState) (id : ℕ)
    (draw : List ℝ) : Except RejectReason (Sample × SampleStatistics) :=
  match dbLookup st id with
  | none => .error .notFoundError
  | some sdef =>
    match theoreticalMoments sdef.distribution_type (paramVal sdef 0)
        (paramVal sdef 1) with
    | none => .error .familyError
    | some (md, sd) => .ok (sdef, sampleStats draw md sd)

end MainApp

/-- sqlite-store states reachable from the empty table by registrations. -/
inductive DBReachable : DBState → Prop where
  | init : DBReachable ⟨[], 1⟩
  | step (st : DBState) (s : Sample) (h : DBReachable st) :
      DBReachable (Endpoints.generate_sample_entry st s).2

/-- `main.py` states reachable from the initial `db = {}`, `ID = 1` by
registrations. -/
inductive MainReachable : MainState → Prop where
  | init : MainReachable ⟨[], 1⟩
  | step (st : MainState) (s : Sample) (h : MainReachable st) :
      MainReachable (MainApp.generate_sample_entry st s).2

/-- Transcribed from the spec's words (§4.1 table plus rule 1): the request
is acceptable iff the params' roles are, in order, the family's required
pair, `num_samples ≥ 2`, and the extra domain constraints hold. -/
def specAccepts (s : Sample) : Prop :=
  2 ≤ s.num_samples ∧
  ((s.distribution_type = "uniform" ∧
      s.params.map Parameter.param_type =
        [ParameterTypes.min, ParameterTypes.max]) ∨
   (s.distribution_type = "normal" ∧
      s.params.map Parameter.param_type =
        [ParameterTypes.mean, ParameterTypes.std] ∧
      0 < paramVal s 1) ∨
   (s.distribution_type = "weibull" ∧
      s.params.map Parameter.param_type =
        [ParameterTypes.shape, ParameterTypes.scale] ∧
      0 < paramVal s 0 ∧ 0 < paramVal s 1))

/-- What `main.py`'s inline validation actually accepts: the family table's
role and positivity constraints with no `num_samples` bound, and any
request whose tag is none of the three families (the fall-through). -/
def specAcceptsMain (s : Sample) : Prop :=
  (s.distribution_type = "uniform" ∧
      s.params.map Parameter.param_type =
        [ParameterTypes.min, ParameterTypes.max]) ∨
  (s.distribution_type = "normal" ∧
      s.params.map Parameter.param_type =
        [ParameterTypes.mean, ParameterTypes.std] ∧
      0 < paramVal s 1) ∨
  (s.distribution_type = "weibull" ∧
      s.params.map Parameter.param_type =
        [ParameterTypes.shape, ParameterTypes.scale] ∧
      0 < paramVal s 0 ∧ 0 < paramVal s 1) ∨
  ¬ knownFamily s.distribution_type

/-- Transcribed from the spec's words: the arithmetic mean of the `n` drawn
values. -/
noncomputable def specArithmeticMean (xs : List ℝ) : ℝ :=
  (∑ i ∈ Finset.range xs.length, xs.getD i 0) / (xs.length : ℝ)

/-- Transcribed from the spec's words: the Bessel-corrected (divisor `n-1`)
standard-deviation estimator of the drawn values. -/
noncomputable def specBesselStd (xs : List ℝ) : ℝ :=
  Real.sqrt
    ((∑ i ∈ Finset.range xs.length,
        (xs.getD i 0 - specArithmeticMean xs) ^ 2) / ((xs.length : ℝ) - 1))

/-- A well-formed uniform definition used to instantiate the theorems. -/
def demoSample : Sample :=
  ⟨"uniform", 5, [⟨ParameterTypes.min, 0⟩, ⟨ParameterTypes.max, 2⟩]⟩

/-- The sqlite row created for `demoSample`. -/
def demoRow : Row :=
  ⟨1, "uniform", 0, 2, 5⟩

/-- The sqlite store after registering `demoSample` in the empty store. -/
def demoDB : DBState :=
  ⟨[demoRow], 2⟩

/-- The statistics record computed for `demoSample` from an empty draw. -/
noncomputable def demoStats : SampleStatistics :=
  sampleStats [] ((((0 : ℚ) : ℝ) + ((2 : ℚ) : ℝ)) / 2)
    ((((2 : ℚ) : ℝ) - ((0 : ℚ) : ℝ)) / Real.sqrt 12)

/-- The `main.py` store after registering `demoSample` in the empty store. -/
def demoMain : MainState :=
  ⟨[(1, demoSample)], 2⟩

/-- A normal definition with a non-positive standard deviation. -/
def badNormal : Sample :=
  ⟨"normal", 10, [⟨ParameterTypes.mean, 0⟩, ⟨ParameterTypes.std, -1⟩]⟩

/-- A request with an unrecognized family tag. -/
def unknownFam : Sample :=
  ⟨"poisson", 100, [⟨ParameterTypes.min, 0⟩, ⟨ParameterTypes.max, 1⟩]⟩

/-- The `main.py` store after the unknown-family request has been stored
(reachable, since that validator has no unknown-family branch). -/
def demoBadMain : MainState :=
  ⟨[(1, unknownFam)], 2⟩

/-- A uniform request with `num_samples = 1`. -/
def undersized : Sample :=
  ⟨"uniform", 1, [⟨ParameterTypes.min, 0⟩, ⟨ParameterTypes.max, 1⟩]⟩

/-! ## Helper lemmas -/

/-- A validation failure in the sqlite variant propagates with the store
untouched. -/
theorem endpoints_register_error (st : DBState) (s : Sample) (e : RejectReason)
    (h : Endpoints.validate s = .error e) :
    Endpoints.generate_sample_entry st s = (.error e, st) := by
  unfold Endpoints.generate_sample_entry
  rw [h]

/-- A validation failure in the `main.py` variant propagates with `db` and
`ID` untouched. -/
theorem main_register_error (st : MainState) (s : Sample) (e : RejectReason)
    (h : MainApp.validateSample s = .error e) :
    MainApp.generate_sample_entry st s = (.error e, st) := by
  unfold MainApp.generate_sample_entry
  rw [h]

/-- The row inserted for a sample matches that sample's dedup tuple. -/
theorem dedupMatches_self (s : Sample) (i : ℕ) :
    Endpoints.dedupMatches s
      ⟨i, s.distribution_type, paramVal s 0, paramVal s 1, s.num_samples⟩
      = true := by
  simp [Endpoints.dedupMatches]

/-- Anything the sqlite-variant validator accepts carries one of the three
known family tags. -/
theorem validate_ok_knownFamily (s : Sample)
    (h : Endpoints.validate s = .ok ()) : knownFamily s.distribution_type := by
  unfold knownFamily
  by_cases h1 : s.distribution_type = "uniform"
  · exact Or.inl h1
  by_cases h2 : s.distribution_type = "normal"
  · exact Or.inr (Or.inl h2)
  by_cases h3 : s.distribution_type = "weibull"
  · exact Or.inr (Or.inr h3)
  exfalso
  unfold Endpoints.validate at h
  rw [if_neg h1, if_neg h2, if_neg h3] at h
  split_ifs at h

/-- The moment computation has a value exactly on the known family tags. -/
theorem theoreticalMoments_isSome_of_knownFamily (t : String) (p0 p1 : ℚ)
    (h : knownFamily t) :
    ∃ md sd, theoreticalMoments t p0 p1 = some (md, sd) := by
  rcases h with h | h | h <;> subst h
  · exact ⟨((p0 : ℝ) + (p1 : ℝ)) / 2, ((p1 : ℝ) - (p0 : ℝ)) / Real.sqrt 12,
      by simp [theoreticalMoments]⟩
  · exact ⟨(p0 : ℝ), (p1 : ℝ), by simp [theoreticalMoments]⟩
  · exact ⟨(p1 : ℝ) * Real.Gamma (1 + 1 / (p0 : ℝ)),
      (p1 : ℝ) * Real.sqrt (Real.Gamma (1 + 2 / (p0 : ℝ))
        - Real.Gamma (1 + 1 / (p0 : ℝ)) ^ 2),
      by simp [theoreticalMoments]⟩

/-- Store invariant: every row of a reachable sqlite store carries a known
family tag (registration is the only write and is gated by validation). -/
theorem db_reachable_knownFamily (st : DBState) (h : DBReachable st) :
    ∀ r ∈ st.rows, knownFamily r.distribution_type := by
  induction h with
  | init => intro r hr; simp at hr
  | step st' s _ ih =>
    intro r hr
    unfold Endpoints.generate_sample_entry at hr
    cases hv : Endpoints.validate s with
    | error e => rw [hv] at hr; exact ih r hr
    | ok u =>
      rw [hv] at hr
      cases hfind : st'.rows.find? (Endpoints.dedupMatches s) with
      | some r0 => rw [hfind] at hr; exact ih r hr
      | none =>
        rw [hfind] at hr
        simp only [List.mem_append, List.mem_singleton] at hr
        rcases hr with hr | hr
        · exact ih r hr
        · subst hr
          cases u
          exact validate_ok_knownFamily s hv

/-- Store invariant: every key of a reachable `main.py` store is below the
global `ID` counter. -/
theorem main_reachable_key_lt (st : MainState) (h : MainReachable st) :
    ∀ p ∈ st.db, p.1 < st.ID := by
  induction h with
  | init => simp
  | step st' s _ ih =>
    intro p hp
    unfold MainApp.generate_sample_entry at hp ⊢
    cases hv : MainApp.validateSample s with
    | error e => rw [hv] at hp; exact ih p hp
    | ok u =>
      rw [hv] at hp
      simp only [List.mem_append, List.mem_singleton] at hp
      rcases hp with hp | hp
      · exact Nat.lt_succ_of_lt (ih p hp)
      · subst hp; exact Nat.lt_succ_self _


/-- Summing a function of the positional entries of a list over
`Finset.range` agrees with summing over the mapped list. -/
theorem sum_range_getD_map (f : ℝ → ℝ) (xs : List ℝ) :
    ∑ i ∈ Finset.range xs.length, f (xs.getD i 0) = (xs.map f).sum := by
  induction xs with
  | nil => simp
  | cons a t ih =>
    rw [List.length_cons, Finset.sum_range_succ']
    simp only [List.getD_cons_succ, List.getD_cons_zero, ih]
    simp [add_comm]

/-! ## Claim C1 -/

/-- C1 counterexample: the `main.py` variant accepts and stores a uniform
registration with `num_samples = 1`, although the claim requires every
request with `num_samples < 2` to be rejected before storage. -/
theorem main_accepts_undersized_num_samples :
    undersized.num_samples = 1 ∧
    (MainApp.generate_sample_entry ⟨[], 1⟩ undersized).1 = .ok 1 ∧
    (MainApp.generate_sample_entry ⟨[], 1⟩ undersized).2.db
      = [(1, undersized)] :=
  ⟨rfl, rfl, rfl⟩

/-- C1 (amended): the sqlite-variant validation accepts exactly the requests
satisfying the spec's table — two params with the family's roles in order,
`num_samples ≥ 2`, and the positivity constraints — while the `main.py`
variant's validation accepts exactly the role/positivity-correct requests
with no `num_samples` bound, together with every request whose family tag
is unknown (its fall-through). -/
theorem validate_ok_iff_spec (s : Sample) :
    (Endpoints.validate s = .ok () ↔ specAccepts s) ∧
    (MainApp.validateSample s = .ok () ↔ specAcceptsMain s) := by
  obtain ⟨dist, n, ps⟩ := s
  rcases ps with _ | ⟨⟨t0, v0⟩, _ | ⟨⟨t1, v1⟩, _ | ⟨p2, rest⟩⟩⟩ <;>
    constructor <;>
    simp [Endpoints.validate, MainApp.validateSample, specAccepts,
      specAcceptsMain, knownFamily, paramVal] <;>
    split_ifs <;> simp_all <;> omega

/-! ## Claim C2 -/

/-- C2 counterexample: in the `main.py` variant, registering the same valid
definition twice returns identifier 1 and then identifier 2, and the store
afterwards holds two records for the same dedup tuple. -/
theorem main_register_not_idempotent :
    Endpoints.validate demoSample = .ok () ∧
    MainApp.validateSample demoSample = .ok () ∧
    (MainApp.generate_sample_entry ⟨[], 1⟩ demoSample).1 = .ok 1 ∧
    (MainApp.generate_sample_entry
        (MainApp.generate_sample_entry ⟨[], 1⟩ demoSample).2 demoSample).1
      = .ok 2 ∧
    (MainApp.generate_sample_entry
        (MainApp.generate_sample_entry ⟨[], 1⟩ demoSample).2 demoSample).2.db
      = [(1, demoSample), (2, demoSample)] :=
  ⟨rfl, rfl, rfl, rfl, rfl⟩

/-- C2 (amended): in the sqlite-backed variant, registering a valid
definition twice from a store holding at most one record for its dedup
tuple returns the same identifier both times, leaves the store of the
first call unchanged, and the store afterwards contains exactly one
record for that tuple.  (The `main.py` variant is not idempotent: see the
counterexample.) -/
theorem endpoints_register_idempotent (st : DBState) (s : Sample)
    (hv : Endpoints.validate s = .ok ())
    (hinv : st.rows.countP (Endpoints.dedupMatches s) ≤ 1) :
    (Endpoints.generate_sample_entry
        (Endpoints.generate_sample_entry st s).2 s).1
      = (Endpoints.generate_sample_entry st s).1 ∧
    (Endpoints.generate_sample_entry
        (Endpoints.generate_sample_entry st s).2 s).2
      = (Endpoints.generate_sample_entry st s).2 ∧
    (Endpoints.generate_sample_entry st s).2.rows.countP
        (Endpoints.dedupMatches s) = 1 ∧
    ∃ k, (Endpoints.generate_sample_entry st s).1 = .ok k := by
  cases hfind : st.rows.find? (Endpoints.dedupMatches s) with
  | some r =>
    have h1 : 0 < st.rows.countP (Endpoints.dedupMatches s) :=
      List.countP_pos_iff.mpr
        ⟨r, List.mem_of_find?_eq_some hfind, List.find?_some hfind⟩
    have e1 : Endpoints.generate_sample_entry st s = (.ok r.id, st) := by
      simp only [Endpoints.generate_sample_entry, hv, hfind]
    rw [e1]
    exact ⟨congrArg Prod.fst e1, congrArg Prod.snd e1,
      by show st.rows.countP (Endpoints.dedupMatches s) = 1; omega,
      ⟨r.id, rfl⟩⟩
  | none =>
    have hz : st.rows.countP (Endpoints.dedupMatches s) = 0 :=
      List.countP_eq_zero.mpr (List.find?_eq_none.mp hfind)
    have hfind2 :
        (st.rows ++
          [Row.mk st.nextId s.distribution_type (paramVal s 0) (paramVal s 1)
            s.num_samples]).find? (Endpoints.dedupMatches s)
          = some (Row.mk st.nextId s.distribution_type (paramVal s 0)
              (paramVal s 1) s.num_samples) := by
      rw [List.find?_append, hfind]
      simp [dedupMatches_self]
    have e1 : Endpoints.generate_sample_entry st s
        = (.ok st.nextId,
            ⟨st.rows ++
              [Row.mk st.nextId s.distribution_type (paramVal s 0) (paramVal s 1)
                s.num_samples],
              st.nextId + 1⟩) := by
      simp only [Endpoints.generate_sample_entry, hv, hfind]
    have e2 : Endpoints.generate_sample_entry
        (⟨st.rows ++
          [Row.mk st.nextId s.distribution_type (paramVal s 0) (paramVal s 1)
            s.num_samples],
          st.nextId + 1⟩ : DBState) s
        = (.ok st.nextId,
            ⟨st.rows ++
              [Row.mk st.nextId s.distribution_type (paramVal s 0) (paramVal s 1)
                s.num_samples],
              st.nextId + 1⟩) := by
      simp only [Endpoints.generate_sample_entry, hv, hfind2]
    have hc : (st.rows ++
        [Row.mk st.nextId s.distribution_type (paramVal s 0) (paramVal s 1)
          s.num_samples]).countP (Endpoints.dedupMatches s) = 1 := by
      rw [List.countP_append, hz]
      simp [List.countP_cons, dedupMatches_self]
    rw [e1]
    exact ⟨congrArg Prod.fst e2, congrArg Prod.snd e2, hc, ⟨st.nextId, rfl⟩⟩

/-- C2 witness: the amended idempotence theorem instantiated at the valid
uniform definition `demoSample` and the empty store. -/
theorem endpoints_register_idempotent_witness :
    Endpoints.validate demoSample = .ok () ∧
    (DBState.mk [] 1).rows.countP (Endpoints.dedupMatches demoSample) ≤ 1 ∧
    ((Endpoints.generate_sample_entry
        (Endpoints.generate_sample_entry ⟨[], 1⟩ demoSample).2 demoSample).1
      = (Endpoints.generate_sample_entry ⟨[], 1⟩ demoSample).1 ∧
    (Endpoints.generate_sample_entry
        (Endpoints.generate_sample_entry ⟨[], 1⟩ demoSample).2 demoSample).2
      = (Endpoints.generate_sample_entry ⟨[], 1⟩ demoSample).2 ∧
    (Endpoints.generate_sample_entry ⟨[], 1⟩ demoSample).2.rows.countP
        (Endpoints.dedupMatches demoSample) = 1 ∧
    ∃ k, (Endpoints.generate_sample_entry ⟨[], 1⟩ demoSample).1 = .ok k) :=
  ⟨rfl, by decide,
    endpoints_register_idempotent ⟨[], 1⟩ demoSample rfl (by decide)⟩

/-! ## Claim C3 -/

/-- C3: whenever the statistics endpoint succeeds, the theoretical moments
in its response equal the families' closed forms: uniform mean
`(p0+p1)/2` and std `(p1-p0)/sqrt 12`, normal mean `p0` and std `p1`,
weibull mean `p1*Gamma(1+1/p0)` and std
`p1*sqrt(Gamma(1+2/p0) - Gamma(1+1/p0)^2)`. -/
theorem stats_theoretical_moments (st : DBState) (id : ℕ) (draw : List ℝ)
    (r : Row) (stats : SampleStatistics)
    (h : Endpoints.get_sample_statistics st id draw = .ok (r, stats)) :
    (r.distribution_type = "uniform" →
      stats.mean_dist = ((r.param_one : ℝ) + (r.param_two : ℝ)) / 2 ∧
      stats.std_dist
        = ((r.param_two : ℝ) - (r.param_one : ℝ)) / Real.sqrt 12) ∧
    (r.distribution_type = "normal" →
      stats.mean_dist = (r.param_one : ℝ) ∧
      stats.std_dist = (r.param_two : ℝ)) ∧
    (r.distribution_type = "weibull" →
      stats.mean_dist
        = (r.param_two : ℝ) * Real.Gamma (1 + 1 / (r.param_one : ℝ)) ∧
      stats.std_dist = (r.param_two : ℝ) *
        Real.sqrt (Real.Gamma (1 + 2 / (r.param_one : ℝ))
          - Real.Gamma (1 + 1 / (r.param_one : ℝ)) ^ 2)) := by
  unfold Endpoints.get_sample_statistics at h
  cases hfind : st.rows.find? (fun row => row.id == id) with
  | none => simp only [hfind] at h; exact absurd h (by simp)
  | some r0 =>
    simp only [hfind] at h
    cases hm : theoreticalMoments r0.distribution_type r0.param_one
        r0.param_two with
    | none => simp only [hm] at h; exact absurd h (by simp)
    | some msd =>
      obtain ⟨md, sd⟩ := msd
      simp only [hm] at h
      simp only [Except.ok.injEq, Prod.mk.injEq] at h
      obtain ⟨hr0, hstats⟩ := h
      subst hr0
      subst hstats
      refine ⟨?_, ?_, ?_⟩
      · intro hd
        rw [hd] at hm
        unfold theoreticalMoments at hm
        rw [if_pos rfl] at hm
        simp only [Option.some.injEq, Prod.mk.injEq] at hm
        exact ⟨by simp [sampleStats, ← hm.1], by simp [sampleStats, ← hm.2]⟩
      · intro hd
        rw [hd] at hm
        unfold theoreticalMoments at hm
        rw [if_neg (by decide), if_pos rfl] at hm
        simp only [Option.some.injEq, Prod.mk.injEq] at hm
        exact ⟨by simp [sampleStats, ← hm.1], by simp [sampleStats, ← hm.2]⟩
      · intro hd
        rw [hd] at hm
        unfold theoreticalMoments at hm
        rw [if_neg (by decide), if_neg (by decide), if_pos rfl] at hm
        simp only [Option.some.injEq, Prod.mk.injEq] at hm
        exact ⟨by simp [sampleStats, ← hm.1], by simp [sampleStats, ← hm.2]⟩

/-- C3 witness: for the stored uniform definition `demoRow` (min 0, max 2)
the statistics response carries mean 1 and std 2/sqrt 12. -/
theorem stats_theoretical_moments_witness :
    Endpoints.get_sample_statistics demoDB 1 [] = .ok (demoRow, demoStats) ∧
    demoStats.mean_dist = (((0 : ℚ) : ℝ) + ((2 : ℚ) : ℝ)) / 2 ∧
    demoStats.std_dist = (((2 : ℚ) : ℝ) - ((0 : ℚ) : ℝ)) / Real.sqrt 12 := by
  have h : Endpoints.get_sample_statistics demoDB 1 []
      = .ok (demoRow, demoStats) := rfl
  have h2 := (stats_theoretical_moments demoDB 1 [] demoRow demoStats h).1 rfl
  exact ⟨h, h2.1, h2.2⟩


/-! ## Claim C4 -/

/-- C4 counterexample: in the `main.py` variant the success half of the
claim fails.  The store `[(1, unknownFam)]` is reachable (that validator
stores unknown-family requests), identifier 1 has a stored record, yet
the statistics request for it fails with a FamilyError instead of
succeeding. -/
theorem main_statistics_fails_on_stored_record :
    MainReachable demoBadMain ∧
    MainApp.dbLookup demoBadMain 1 = some unknownFam ∧
    MainApp.get_sample_statistics demoBadMain 1 [] = .error .familyError := by
  refine ⟨?_, rfl, rfl⟩
  have h := MainReachable.step ⟨[], 1⟩ unknownFam MainReachable.init
  have he : (MainApp.generate_sample_entry ⟨[], 1⟩ unknownFam).2
      = demoBadMain := rfl
  rwa [he] at h

/-- C4 (amended): in the sqlite-backed endpoints variant, on a reachable
store the statistics request fails with the not-found rejection exactly
when no row carries the requested identifier, and succeeds whenever one
does (registration gates the store, so every stored row has a known
family tag).  In the `main.py` variant the not-found half holds (the
`db[id]` access fails on a missing key) but the success half does not:
its unchecked store can hold records whose statistics request fails (see
the counterexample). -/
theorem statistics_notFound_or_ok (st : DBState) (id : ℕ) (draw : List ℝ)
    (hr : DBReachable st) :
    ((∀ r ∈ st.rows, r.id ≠ id) →
      Endpoints.get_sample_statistics st id draw = .error .notFoundError) ∧
    ((∃ r ∈ st.rows, r.id = id) →
      ∃ out, Endpoints.get_sample_statistics st id draw = .ok out) := by
  constructor
  · intro hnone
    have hfind : st.rows.find? (fun r => r.id == id) = none :=
      List.find?_eq_none.mpr (fun r hm => by simpa using hnone r hm)
    unfold Endpoints.get_sample_statistics
    rw [hfind]
  · rintro ⟨r, hmem, hid⟩
    have hsome : (st.rows.find? (fun r => r.id == id)).isSome :=
      List.find?_isSome.mpr ⟨r, hmem, by simpa using hid⟩
    obtain ⟨r1, hr1⟩ := Option.isSome_iff_exists.mp hsome
    have hk : knownFamily r1.distribution_type :=
      db_reachable_knownFamily st hr r1 (List.mem_of_find?_eq_some hr1)
    obtain ⟨md, sd, hm⟩ := theoreticalMoments_isSome_of_knownFamily
      r1.distribution_type r1.param_one r1.param_two hk
    refine ⟨(r1, sampleStats draw md sd), ?_⟩
    simp only [Endpoints.get_sample_statistics, hr1, hm]

/-- C4 witness: on the reachable one-row store `demoDB`, identifier 7 is
rejected as not found and identifier 1 succeeds. -/
theorem statistics_notFound_or_ok_witness :
    Endpoints.get_sample_statistics demoDB 7 [] = .error .notFoundError ∧
    ∃ out, Endpoints.get_sample_statistics demoDB 1 [] = .ok out := by
  have hstep := DBReachable.step ⟨[], 1⟩ demoSample DBReachable.init
  have he : (Endpoints.generate_sample_entry ⟨[], 1⟩ demoSample).2
      = demoDB := rfl
  rw [he] at hstep
  exact ⟨(statistics_notFound_or_ok demoDB 7 [] hstep).1 (by decide),
    (statistics_notFound_or_ok demoDB 1 [] hstep).2 ⟨demoRow, by decide, rfl⟩⟩

/-! ## Claim C5 -/

/-- C5 counterexample: the `main.py` validator has no unknown-family branch;
a request with family tag "poisson" falls through and is stored rather
than being rejected by the validator itself. -/
theorem main_stores_unknown_family :
    ¬ knownFamily unknownFam.distribution_type ∧
    (MainApp.generate_sample_entry ⟨[], 1⟩ unknownFam).1 = .ok 1 ∧
    (MainApp.generate_sample_entry ⟨[], 1⟩ unknownFam).2.db
      = [(1, unknownFam)] :=
  ⟨by decide, rfl, rfl⟩

/-- C5 (amended): in the sqlite variant the validator itself rejects any
request whose family tag is not among the three known tags with a
FamilyError regardless of the parameters (the arity rule runs first, so
`num_samples ≥ 2` is assumed), and such a request is never stored; the
`main.py` validator has no such branch and stores the request (see the
counterexample). -/
theorem endpoints_unknown_family_rejected (st : DBState) (s : Sample)
    (hf : ¬ knownFamily s.distribution_type) (hn : 2 ≤ s.num_samples) :
    Endpoints.validate s = .error .familyError ∧
    Endpoints.generate_sample_entry st s = (.error .familyError, st) := by
  have hf1 := hf
  unfold knownFamily at hf1
  push_neg at hf1
  obtain ⟨h1, h2, h3⟩ := hf1
  have hv : Endpoints.validate s = .error .familyError := by
    unfold Endpoints.validate
    rw [if_neg (by omega), if_neg h1, if_neg h2, if_neg h3]
  exact ⟨hv, endpoints_register_error st s .familyError hv⟩

/-- C5 witness: the amended rejection theorem instantiated at the
"poisson"-tagged request and the empty store. -/
theorem endpoints_unknown_family_rejected_witness :
    ¬ knownFamily unknownFam.distribution_type ∧
    2 ≤ unknownFam.num_samples ∧
    (Endpoints.validate unknownFam = .error .familyError ∧
      Endpoints.generate_sample_entry ⟨[], 1⟩ unknownFam
        = (.error .familyError, ⟨[], 1⟩)) :=
  ⟨by decide, by decide,
    endpoints_unknown_family_rejected ⟨[], 1⟩ unknownFam (by decide)
      (by decide)⟩

/-! ## Claim C6 -/

/-- C6: the computed statistics record consists exactly of the arithmetic
mean of the drawn values, the Bessel-corrected (divisor `n-1`) standard
deviation, the two theoretical moments, and the two absolute errors —
and nothing else (the record equality pins all six fields). -/
theorem empirical_stats_spec (draw : List ℝ) (md sd : ℝ)
    (_hn : 2 ≤ draw.length) :
    sampleStats draw md sd =
      ⟨specArithmeticMean draw, specBesselStd draw, md, sd,
        |specArithmeticMean draw - md|, |specBesselStd draw - sd|⟩ := by
  have hmean : npMean draw = specArithmeticMean draw := by
    unfold npMean specArithmeticMean
    rw [sum_range_getD_map (fun x => x) draw]
    simp
  have hstd : npStd1 draw = specBesselStd draw := by
    unfold npStd1 specBesselStd
    rw [← sum_range_getD_map (fun x => (x - npMean draw) ^ 2) draw, hmean]
  unfold sampleStats
  rw [hmean, hstd]

/-- C6 witness: the empirical-statistics theorem instantiated at the
two-element draw `[0, 2]`. -/
theorem empirical_stats_spec_witness :
    2 ≤ ([0, 2] : List ℝ).length ∧
    sampleStats [0, 2] 1 1 =
      ⟨specArithmeticMean [0, 2], specBesselStd [0, 2], 1, 1,
        |specArithmeticMean [0, 2] - 1|, |specBesselStd [0, 2] - 1|⟩ :=
  ⟨by decide, empirical_stats_spec [0, 2] 1 1 (by decide)⟩

/-! ## Claim C7 -/

/-- C7: a validation failure leaves the store exactly as it was — no record
added and no identifier consumed — in both variants; validation itself is
a pure function of the request alone (`validate` and `validateSample`
take no store argument). -/
theorem register_unchanged_on_validation_failure (st : DBState)
    (stm : MainState) (s : Sample) (e em : RejectReason) :
    (Endpoints.validate s = .error e →
      Endpoints.generate_sample_entry st s = (.error e, st)) ∧
    (MainApp.validateSample s = .error em →
      MainApp.generate_sample_entry stm s = (.error em, stm)) :=
  ⟨endpoints_register_error st s e, main_register_error stm s em⟩

/-- C7 witness: instantiated at a normal definition with std = -1, rejected
by both variants with the state returned unchanged. -/
theorem register_unchanged_on_validation_failure_witness :
    Endpoints.validate badNormal = .error .domainError ∧
    MainApp.validateSample badNormal = .error .domainError ∧
    (Endpoints.generate_sample_entry ⟨[], 1⟩ badNormal
      = (.error .domainError, ⟨[], 1⟩) ∧
    MainApp.generate_sample_entry ⟨[], 1⟩ badNormal
      = (.error .domainError, ⟨[], 1⟩)) := by
  have h := register_unchanged_on_validation_failure ⟨[], 1⟩ ⟨[], 1⟩ badNormal
    .domainError .domainError
  exact ⟨rfl, rfl, h.1 rfl, h.2 rfl⟩

/-! ## Claim C8 -/

/-- C8: a uniform registration with roles (min, max) in order and
`num_samples ≥ 2` passes validation for all parameter values — no
`min < max` ordering constraint is enforced by either variant. -/
theorem uniform_no_ordering_check (v0 v1 : ℚ) (n : ℤ) (hn : 2 ≤ n) :
    Endpoints.validate
        ⟨"uniform", n, [⟨ParameterTypes.min, v0⟩, ⟨ParameterTypes.max, v1⟩]⟩
      = .ok () ∧
    MainApp.validateSample
        ⟨"uniform", n, [⟨ParameterTypes.min, v0⟩, ⟨ParameterTypes.max, v1⟩]⟩
      = .ok () := by
  have h1 : ¬ ((n : ℤ) ≤ 1) := by omega
  constructor <;> simp [Endpoints.validate, MainApp.validateSample, h1]

/-- C8 witness: the acceptance theorem instantiated with min = 5 strictly
above max = 1. -/
theorem uniform_no_ordering_check_witness :
    2 ≤ (2 : ℤ) ∧ (1 : ℚ) < 5 ∧
    (Endpoints.validate
        ⟨"uniform", 2, [⟨ParameterTypes.min, 5⟩, ⟨ParameterTypes.max, 1⟩]⟩
      = .ok () ∧
    MainApp.validateSample
        ⟨"uniform", 2, [⟨ParameterTypes.min, 5⟩, ⟨ParameterTypes.max, 1⟩]⟩
      = .ok ()) :=
  ⟨by decide, by decide, uniform_no_ordering_check 5 1 2 (by decide)⟩

/-! ## Claim C9 -/

/-- C9: whenever the `main.py` statistics endpoint succeeds, its response is
the pair of the stored sample definition itself (the `db[id]` lookup
result, not only the six statistics fields) and the computed statistics
record. -/
theorem statistics_returns_definition_pair (st : MainState) (id : ℕ)
    (draw : List ℝ) (out : Sample × SampleStatistics)
    (h : MainApp.get_sample_statistics st id draw = .ok out) :
    MainApp.dbLookup st id = some out.1 ∧
    ∃ md sd,
      theoreticalMoments out.1.distribution_type (paramVal out.1 0)
          (paramVal out.1 1) = some (md, sd) ∧
      out.2 = sampleStats draw md sd := by
  unfold MainApp.get_sample_statistics at h
  cases hl : MainApp.dbLookup st id with
  | none => simp only [hl] at h; exact absurd h (by simp)
  | some sdef =>
    simp only [hl] at h
    cases hm : theoreticalMoments sdef.distribution_type (paramVal sdef 0)
        (paramVal sdef 1) with
    | none => simp only [hm] at h; exact absurd h (by simp)
    | some msd =>
      obtain ⟨md, sd⟩ := msd
      simp only [hm] at h
      simp only [Except.ok.injEq] at h
      subst h
      exact ⟨rfl, md, sd, hm, rfl⟩

/-- C9 witness: the response for the store `demoMain` at identifier 1 is
the pair of the stored `demoSample` and its statistics record. -/
theorem statistics_returns_definition_pair_witness :
    MainApp.get_sample_statistics demoMain 1 [] = .ok (demoSample, demoStats) ∧
    (MainApp.dbLookup demoMain 1 = some (demoSample, demoStats).1 ∧
    ∃ md sd,
      theoreticalMoments (demoSample, demoStats).1.distribution_type
          (paramVal (demoSample, demoStats).1 0)
          (paramVal (demoSample, demoStats).1 1) = some (md, sd) ∧
      (demoSample, demoStats).2 = sampleStats [] md sd) := by
  have h : MainApp.get_sample_statistics demoMain 1 []
      = .ok (demoSample, demoStats) := rfl
  exact ⟨h, statistics_returns_definition_pair demoMain 1 []
    (demoSample, demoStats) h⟩

/-! ## Claim C10 -/

/-- C10: in the `main.py` variant, a successful registration of a definition
with identifier `k` is immediately retrievable: `db[k]` is exactly the
submitted definition, unchanged, and `(k, d)` appears in the
`get_samples` enumeration. -/
theorem register_lookup_roundtrip (st : MainState) (s : Sample) (k : ℕ)
    (st1 : MainState) (hr : MainReachable st)
    (h : MainApp.generate_sample_entry st s = (.ok k, st1)) :
    MainApp.dbLookup st1 k = some s ∧ (k, s) ∈ MainApp.get_samples st1 := by
  unfold MainApp.generate_sample_entry at h
  cases hv : MainApp.validateSample s with
  | error e => simp only [hv] at h; exact absurd h (by simp)
  | ok u =>
    simp only [hv] at h
    have hk : st.ID = k := by
      have h1 := congrArg Prod.fst h
      simpa using h1
    have hst : st1 = ⟨st.db ++ [(st.ID, s)], st.ID + 1⟩ :=
      (congrArg Prod.snd h).symm
    subst hk
    subst hst
    constructor
    · have hnone : st.db.find? (fun p => p.1 == st.ID) = none :=
        List.find?_eq_none.mpr (fun p hp => by
          have hlt := main_reachable_key_lt st hr p hp
          simp only [beq_iff_eq]
          omega)
      show ((st.db ++ [(st.ID, s)]).find?
        (fun p => p.1 == st.ID)).map Prod.snd = some s
      rw [List.find?_append, hnone]
      simp
    · show (st.ID, s) ∈ st.db ++ [(st.ID, s)]
      simp

/-- C10 witness: registering `demoSample` in the fresh store yields
identifier 1, and both lookup and enumeration return it. -/
theorem register_lookup_roundtrip_witness :
    MainApp.generate_sample_entry ⟨[], 1⟩ demoSample = (.ok 1, demoMain) ∧
    (MainApp.dbLookup demoMain 1 = some demoSample ∧
      (1, demoSample) ∈ MainApp.get_samples demoMain) :=
  ⟨rfl, register_lookup_roundtrip ⟨[], 1⟩ demoSample 1 demoMain
    MainReachable.init rfl⟩

end SDS
